import Mathlib

/-!
Shallow embedding of the clipboard library (src/index.ts and
src/clipboard-action.ts).

Modelling decisions, in order of appearance in the source:

* DOM elements are records of node type, attribute list and text content.
  `hasAttribute` / `getAttribute` follow the DOM behaviour the code relies on.
* JavaScript values flowing into the `target` option are modelled by `JsVal`:
  `undefined`, `null`, an element node, or some other truthy non-element
  value.  The `target` setter distinguishes exactly these cases.
* The platform primitives the code calls are gathered in `Env`:
  `document.execCommand` may return a boolean or throw (`Option Bool`,
  `none` = throw), the `dir` attribute of the document element, and the
  scroll offsets read by `selectFake`.
* The mutable DOM container is a `Dom` record: the list of fake textarea
  children appended to the container, the container click listeners
  registered by actions (identified by the owning action id), and a fresh-id
  counter for created elements.
* Exceptions thrown by constructors are `Except String`; the payload is the
  message of the thrown `Error`.
* Event emission (`this.emitter.emit(...)`) is modelled by returning the
  list of emitted events; the bound `clearSelection` callback is recorded as
  a boolean field of the payload.
* The `select` collaborator returns the full text content of the element it
  selects (its `value` for the fake textarea).
-/

namespace ClipboardSpec

/-- A DOM element: node type (1 = element node), attributes, text content. -/
structure Element where
  nodeType : Nat
  attrs : List (String × String)
  textContent : String
deriving Repr, DecidableEq

/-- DOM `hasAttribute`. -/
def Element.hasAttr (e : Element) (a : String) : Bool :=
  e.attrs.any (fun p => p.1 == a)

/-- DOM `getAttribute`: the attribute value, or `none` for null. -/
def Element.getAttr (e : Element) (a : String) : Option String :=
  (e.attrs.find? (fun p => p.1 == a)).map (fun p => p.2)

/-- JavaScript truthiness of a possibly-absent string
(`undefined`/`null` and the empty string are falsy). -/
def truthy : Option String → Bool
  | none => false
  | some s => s ≠ ""

/-- A JavaScript value supplied as the `target` option: `undefined`, `null`,
an element node (`typeof target === "object" && target.nodeType === 1`),
or any other defined non-element value. -/
inductive JsVal where
  | undef
  | null
  | elem (e : Element)
  | other
deriving Repr, DecidableEq

/-- Platform environment read by the code. -/
structure Env where
  /-- `document.execCommand(action)`: `some b` when it returns `b`,
  `none` when it throws. -/
  execCommand : Option String → Option Bool
  /-- `document.documentElement.getAttribute("dir")`. -/
  docDir : Option String
  /-- `window.pageYOffset`. -/
  pageYOffset : Nat
  /-- `document.documentElement.scrollTop`. -/
  scrollTop : Nat

/-- The fake textarea created by `selectFake`, with the styles and
attributes the code sets on it. -/
structure FakeElem where
  id : Nat
  fontSize : String
  border : String
  padding : String
  margin : String
  position : String
  styleLeft : Option String
  styleRight : Option String
  top : String
  readonlyAttr : Bool
  value : String
deriving Repr, DecidableEq

/-- The container element as mutated by the code: fake children appended to
it, container click listeners keyed by the id of the registering action, and
a counter supplying ids for created elements. -/
structure Dom where
  containerChildren : List FakeElem
  containerListeners : List Nat
  nextId : Nat
deriving Repr, DecidableEq

/-- Mutable state of one `ClipboardAction` instance. -/
structure ActionState where
  id : Nat
  action : Option String
  text : Option String
  trigger : Option Element
  selectedText : String
  target : Option Element
  fakeElem : Option FakeElem
  fakeHandlerCallback : Bool
  fakeHandler : Bool
deriving Repr, DecidableEq

/-- Payload of an emitted event: `{action, text, trigger, clearSelection}`;
`clearSelection` records that the bound callback is attached. -/
structure Payload where
  action : Option String
  text : String
  trigger : Option Element
  clearSelection : Bool
deriving Repr, DecidableEq

/-- An event emitted on the emitter (the Controller). -/
inductive Ev where
  | success (p : Payload)
  | error (p : Payload)
deriving Repr, DecidableEq

/-- Options passed to the `ClipboardAction` constructor. -/
structure ClipboardOptions where
  action : Option String
  target : JsVal
  text : Option String
  trigger : Option Element
deriving Repr, DecidableEq

/-- The `target` setter of `ClipboardAction`: ignores `undefined`, accepts a
genuine element node after the action-specific attribute checks, and throws
on everything else.  `action` is `this._action` at assignment time. -/
def setTarget (action : Option String) : JsVal → Except String (Option Element)
  | JsVal.undef => Except.ok none
  | JsVal.elem e =>
      if action == some "copy" && e.hasAttr "disabled" then
        Except.error "Invalid \"target\" attribute. Please use \"readonly\" instead of \"disabled\" attribute"
      else if action == some "cut" && (e.hasAttr "readonly" || e.hasAttr "disabled") then
        Except.error "Invalid \"target\" attribute. You cannot cut text from elements with \"readonly\" or \"disabled\" attributes"
      else
        Except.ok (some e)
  | _ => Except.error "Invalid \"target\" value, use a valid Element"

/-- `ClipboardAction.resolveOptions`: assigns the base properties; the
`target` assignment goes through the validating setter and may throw. -/
def resolveOptions (opts : ClipboardOptions) (id : Nat) : Except String ActionState :=
  match setTarget opts.action opts.target with
  | Except.error msg => Except.error msg
  | Except.ok tgt =>
      Except.ok
        { id := id
          action := opts.action
          text := opts.text
          trigger := opts.trigger
          selectedText := ""
          target := tgt
          fakeElem := none
          fakeHandlerCallback := false
          fakeHandler := false }

/-- `ClipboardAction.removeFake`: detaches the container click listener if
one is registered, and removes the fake element from the container if one
exists. -/
def removeFake (dom : Dom) (s : ActionState) : Dom × ActionState :=
  let p :=
    if s.fakeHandler then
      ({ dom with containerListeners := dom.containerListeners.filter (fun i => i ≠ s.id) },
       { s with fakeHandler := false, fakeHandlerCallback := false })
    else (dom, s)
  match p.2.fakeElem with
  | some fe =>
      ({ p.1 with containerChildren := p.1.containerChildren.erase fe },
       { p.2 with fakeElem := none })
  | none => p

/-- `ClipboardAction.handleResult`: one `emitter.emit` call with the fixed
payload shape. -/
def handleResult (s : ActionState) (succeeded : Bool) : List Ev :=
  [ (if succeeded then Ev.success else Ev.error)
      { action := s.action
        text := s.selectedText
        trigger := s.trigger
        clearSelection := true } ]

/-- `ClipboardAction.copyText`: runs `document.execCommand(this._action)`
inside try/catch, downgrading a throw to `succeeded = false`, then reports
the result. -/
def copyText (env : Env) (dom : Dom) (s : ActionState) : Dom × ActionState × List Ev :=
  let succeeded :=
    match env.execCommand s.action with
    | some b => b
    | none => false
  (dom, s, handleResult s succeeded)

/-- The `document.createElement("textarea")` block of `selectFake`: the
created element with the styles and attributes the code sets, holding the
literal text as its value. -/
def createFakeElem (env : Env) (value : String) (id : Nat) : FakeElem :=
  let isRTL := env.docDir == some "rtl"
  let yPosition := if env.pageYOffset ≠ 0 then env.pageYOffset else env.scrollTop
  { id := id
    fontSize := "12pt"
    border := "0"
    padding := "0"
    margin := "0"
    position := "absolute"
    styleLeft := if isRTL then none else some "-9999px"
    styleRight := if isRTL then some "-9999px" else none
    top := toString yPosition ++ "px"
    readonlyAttr := true
    value := value }

/-- `ClipboardAction.selectFake`: removes any prior fake of this instance,
registers the removal listener on the container, creates the styled fake
textarea holding `this.text`, appends it, selects it and copies. -/
def selectFake (env : Env) (dom : Dom) (s : ActionState) : Dom × ActionState × List Ev :=
  let (dom, s) := removeFake dom s
  let dom := { dom with containerListeners := dom.containerListeners ++ [s.id] }
  let s := { s with fakeHandlerCallback := true, fakeHandler := true }
  let fe := createFakeElem env (s.text.getD "") dom.nextId
  let dom := { dom with containerChildren := dom.containerChildren ++ [fe], nextId := dom.nextId + 1 }
  let s := { s with fakeElem := some fe }
  let s := { s with selectedText := fe.value }
  copyText env dom s

/-- `ClipboardAction.selectTarget`: selects the full content of the target
element (the `select` collaborator returns that content) and copies. -/
def selectTarget (env : Env) (dom : Dom) (s : ActionState) : Dom × ActionState × List Ev :=
  let s := { s with selectedText := match s.target with
                                    | some e => e.textContent
                                    | none => "" }
  copyText env dom s

/-- `ClipboardAction.initSelection`: strategy choice by field presence. -/
def initSelection (env : Env) (dom : Dom) (s : ActionState) : Dom × ActionState × List Ev :=
  if truthy s.text then selectFake env dom s
  else if s.target.isSome then selectTarget env dom s
  else (dom, s, [])

/-- The `ClipboardAction` constructor: `resolveOptions` (which may throw
from the target setter) followed by `initSelection`. -/
def mkClipboardAction (env : Env) (dom : Dom) (opts : ClipboardOptions) (id : Nat) :
    Except String (Dom × ActionState × List Ev) :=
  match resolveOptions opts id with
  | Except.error msg => Except.error msg
  | Except.ok s => Except.ok (initSelection env dom s)

/-- `ClipboardAction.destroy`. -/
def actionDestroy (dom : Dom) (s : ActionState) : Dom × ActionState :=
  removeFake dom s

/-- Helper `getAttributeValue(suffix, element)` of index.ts. -/
def getAttributeValue (suffix : String) (element : Element) : Option String :=
  let attr := "data-clipboard-" ++ suffix
  if element.hasAttr attr then element.getAttr attr else none

/-- `Clipboard.defaultAction`. -/
def defaultAction (trigger : Element) : Option String :=
  getAttributeValue "action" trigger

/-- `Clipboard.defaultTarget`: resolves the `data-clipboard-target` selector
through `document.querySelector` (modelled by `qs`); returns `null` when the
selector is absent or empty, and `querySelector`'s result (an element or
`null`) otherwise. -/
def defaultTarget (qs : String → Option Element) (trigger : Element) : JsVal :=
  let selector := getAttributeValue "target" trigger
  if truthy selector then
    match qs (selector.getD "") with
    | some e => JsVal.elem e
    | none => JsVal.null
  else JsVal.null

/-- `Clipboard.defaultText`. -/
def defaultText (trigger : Element) : Option String :=
  getAttributeValue "text" trigger

/-- `Clipboard.onClick` with the default resolvers in place: resolves
action, target, text from the trigger attributes and constructs a new
`ClipboardAction`. -/
def onClick (env : Env) (qs : String → Option Element) (dom : Dom) (trigger : Element)
    (id : Nat) : Except String (Dom × ActionState × List Ev) :=
  mkClipboardAction env dom
    { action := defaultAction trigger
      target := defaultTarget qs trigger
      text := defaultText trigger
      trigger := some trigger } id

/-- `Clipboard.isSupported`: `qcs` models `document.queryCommandSupported`
(`none` when the platform lacks it). -/
def isSupported (qcs : Option (String → Bool)) (action : String ⊕ List String) : Bool :=
  let actions := match action with
    | Sum.inl s => [s]
    | Sum.inr l => l
  let support := qcs.isSome
  actions.foldl
    (fun sup a =>
      sup && (match qcs with
              | some f => f a
              | none => false))
    support

/-- The default argument of `isSupported`. -/
def isSupportedDefaultActions : List String := ["copy", "cut"]

/-- State of a `Clipboard` controller instance relevant to teardown: the
click listener handle and the last constructed action. -/
structure ControllerState where
  listenerAttached : Bool
  clipboardAction : Option ActionState
deriving Repr, DecidableEq

/-- `Clipboard.destroy`: destroys the listener, then destroys and drops the
held action if any. -/
def controllerDestroy (dom : Dom) (c : ControllerState) : Dom × ControllerState :=
  let c := { c with listenerAttached := false }
  match c.clipboardAction with
  | some a =>
      let (dom, _) := actionDestroy dom a
      (dom, { c with clipboardAction := none })
  | none => (dom, c)

/-! ### Concrete fixtures used by witnesses and counterexamples -/

/-- A platform on which `execCommand` always returns `true`. -/
def envW : Env :=
  { execCommand := fun _ => some true, docDir := none, pageYOffset := 0, scrollTop := 0 }

/-- A platform on which `execCommand` always throws. -/
def envFail : Env :=
  { execCommand := fun _ => none, docDir := none, pageYOffset := 0, scrollTop := 0 }

/-- An empty container. -/
def dom0 : Dom := { containerChildren := [], containerListeners := [], nextId := 0 }

/-- A freshly resolved action state with neither text nor target. -/
def idleState : ActionState :=
  { id := 0, action := none, text := none, trigger := none, selectedText := "",
    target := none, fakeElem := none, fakeHandlerCallback := false, fakeHandler := false }

/-- An action state whose `text` drives selection. -/
def textState : ActionState := { idleState with text := some "hello" }

/-! ### Helper lemmas -/

theorem foldl_and_all (f : String → Bool) (l : List String) (b : Bool) :
    l.foldl (fun sup a => sup && f a) b = (b && l.all f) := by
  induction l generalizing b with
  | nil => simp
  | cons x xs ih => simp [List.foldl_cons, ih, Bool.and_assoc]

/-! ### Claims -/

/-- C8: `isSupported` accepts a single action name or a list (the default
argument being `["copy", "cut"]`), is a pure function of the platform query,
returns `false` whenever the platform lacks `queryCommandSupported`, and
otherwise returns `true` iff the query reports support for every requested
action. -/
theorem isSupported_characterisation (qcs : Option (String → Bool))
    (action : String ⊕ List String) :
    isSupported qcs action =
      (match qcs with
       | none => false
       | some f => (match action with
                    | Sum.inl s => [s]
                    | Sum.inr l => l).all f)
    ∧ isSupportedDefaultActions = ["copy", "cut"] := by
  refine ⟨?_, rfl⟩
  cases qcs with
  | none =>
      show (match action with
            | Sum.inl s => [s]
            | Sum.inr l => l).foldl _ _ = _
      rw [foldl_and_all (fun _ => false)]
      simp
  | some f =>
      show (match action with
            | Sum.inl s => [s]
            | Sum.inr l => l).foldl _ _ = _
      rw [foldl_and_all f]
      simp

/-- C6: every run that reaches the command step emits exactly one event,
`success` when the command returned true and `error` otherwise, always with
payload `{action, text := the selected text, trigger, clearSelection}`. -/
theorem copyText_emits_one_event (env : Env) (dom : Dom) (s : ActionState) :
    copyText env dom s
      = (dom, s,
         [ (if (match env.execCommand s.action with
                | some b => b
                | none => false)
            then Ev.success else Ev.error)
             { action := s.action
               text := s.selectedText
               trigger := s.trigger
               clearSelection := true } ]) := rfl

/-- C5: when the platform command throws (`none`) or returns `false`, the
failure is downgraded to `succeeded = false`: the run still returns normally
(nothing is propagated) and reports via a single `error` event. -/
theorem copyText_failure_downgraded (env : Env) (dom : Dom) (s : ActionState)
    (h : env.execCommand s.action = none ∨ env.execCommand s.action = some false) :
    copyText env dom s
      = (dom, s,
         [Ev.error { action := s.action
                     text := s.selectedText
                     trigger := s.trigger
                     clearSelection := true }]) := by
  rcases h with h | h <;> simp [copyText, handleResult, h]

theorem copyText_failure_downgraded_witness :
    (envFail.execCommand idleState.action = none
      ∨ envFail.execCommand idleState.action = some false)
    ∧ copyText envFail dom0 idleState
        = (dom0, idleState,
           [Ev.error { action := idleState.action
                       text := idleState.selectedText
                       trigger := idleState.trigger
                       clearSelection := true }]) :=
  ⟨Or.inl rfl, copyText_failure_downgraded envFail dom0 idleState (Or.inl rfl)⟩

/-- C4: the selection strategy is chosen by field presence: truthy `text`
selects the literal-text (scratch) variant, and a set target with absent
text selects directly on the target with no scratch element created (the
container children, the id counter and the `fakeElem` field are untouched). -/
theorem initSelection_strategy (env : Env) (dom : Dom) (s : ActionState) :
    (truthy s.text = true → initSelection env dom s = selectFake env dom s)
    ∧ (truthy s.text = false → s.target.isSome = true →
        initSelection env dom s = selectTarget env dom s
        ∧ (initSelection env dom s).1.containerChildren = dom.containerChildren
        ∧ (initSelection env dom s).1.nextId = dom.nextId
        ∧ (initSelection env dom s).2.1.fakeElem = s.fakeElem) := by
  constructor
  · intro h
    simp [initSelection, h]
  · intro h1 h2
    refine ⟨by simp [initSelection, h1, h2], ?_, ?_, ?_⟩ <;>
      simp [initSelection, h1, h2, selectTarget, copyText]

theorem initSelection_strategy_witness :
    truthy textState.text = true
    ∧ initSelection envW dom0 textState = selectFake envW dom0 textState :=
  ⟨by decide, (initSelection_strategy envW dom0 textState).1 (by decide)⟩

/-- The claimed rejection condition for a supplied target, written from the
claim: the value is not an actual element reference, or the action is copy
and the target carries `disabled`, or the action is cut and the target
carries `readonly` or `disabled`. -/
def targetRejectedSpec (action : Option String) : JsVal → Bool
  | JsVal.elem e =>
      (action == some "copy" && e.hasAttr "disabled")
      || (action == some "cut" && (e.hasAttr "readonly" || e.hasAttr "disabled"))
  | JsVal.undef => false
  | _ => true

theorem setTarget_null (action : Option String) :
    setTarget action JsVal.null
      = Except.error "Invalid \"target\" value, use a valid Element" := rfl

theorem setTarget_other (action : Option String) :
    setTarget action JsVal.other
      = Except.error "Invalid \"target\" value, use a valid Element" := rfl

theorem setTarget_elem (action : Option String) (e : Element) :
    setTarget action (JsVal.elem e)
      = (if action == some "copy" && e.hasAttr "disabled" then
           Except.error "Invalid \"target\" attribute. Please use \"readonly\" instead of \"disabled\" attribute"
         else if action == some "cut" && (e.hasAttr "readonly" || e.hasAttr "disabled") then
           Except.error "Invalid \"target\" attribute. You cannot cut text from elements with \"readonly\" or \"disabled\" attributes"
         else Except.ok (some e)) := rfl

/-- An element node carrying the `disabled` attribute. -/
def disabledElem : Element :=
  { nodeType := 1, attrs := [("disabled", "")], textContent := "payload" }

/-- An element node carrying the `readonly` attribute. -/
def readonlyElem : Element :=
  { nodeType := 1, attrs := [("readonly", "")], textContent := "payload" }

/-- Options supplying a disabled element target under the copy action. -/
def optsDisabledCopy : ClipboardOptions :=
  { action := some "copy", target := JsVal.elem disabledElem, text := none, trigger := none }

/-- C3: with a supplied (non-`undefined`) target, construction throws
exactly when the target is not an element node, or the action is copy and
the target is disabled, or the action is cut and the target is readonly or
disabled; the error is synchronous (the `Except.error` result carries no
DOM state and no events, so no selection or command ran). -/
theorem construction_rejects_iff (env : Env) (dom : Dom) (opts : ClipboardOptions)
    (id : Nat) (hsupplied : opts.target ≠ JsVal.undef) :
    (∃ msg, mkClipboardAction env dom opts id = Except.error msg)
      ↔ targetRejectedSpec opts.action opts.target = true := by
  have step : ∀ msg, (mkClipboardAction env dom opts id = Except.error msg)
      ↔ (setTarget opts.action opts.target = Except.error msg) := by
    intro msg
    unfold mkClipboardAction resolveOptions
    cases h : setTarget opts.action opts.target <;> simp [h]
  constructor
  · rintro ⟨msg, hmsg⟩
    have h := (step msg).mp hmsg
    cases htgt : opts.target with
    | undef => exact absurd htgt hsupplied
    | null => simp [targetRejectedSpec]
    | other => simp [targetRejectedSpec]
    | elem e =>
        rw [htgt, setTarget_elem] at h
        by_cases h1 : (opts.action == some "copy" && e.hasAttr "disabled") = true
        · simp [targetRejectedSpec, h1]
        · by_cases h2 : (opts.action == some "cut"
              && (e.hasAttr "readonly" || e.hasAttr "disabled")) = true
          · simp [targetRejectedSpec, h2]
          · rw [if_neg h1, if_neg h2] at h
            exact absurd h (by simp)
  · intro hbad
    cases htgt : opts.target with
    | undef => exact absurd htgt hsupplied
    | null =>
        exact ⟨"Invalid \"target\" value, use a valid Element",
          (step _).mpr (by rw [htgt, setTarget_null])⟩
    | other =>
        exact ⟨"Invalid \"target\" value, use a valid Element",
          (step _).mpr (by rw [htgt, setTarget_other])⟩
    | elem e =>
        rw [htgt] at hbad
        have hbad2 : (opts.action == some "copy" && e.hasAttr "disabled"
            || opts.action == some "cut"
               && (e.hasAttr "readonly" || e.hasAttr "disabled")) = true := hbad
        by_cases h1 : (opts.action == some "copy" && e.hasAttr "disabled") = true
        · refine ⟨"Invalid \"target\" attribute. Please use \"readonly\" instead of \"disabled\" attribute",
            (step _).mpr ?_⟩
          rw [htgt, setTarget_elem, if_pos h1]
        · have h2 : (opts.action == some "cut"
              && (e.hasAttr "readonly" || e.hasAttr "disabled")) = true := by
            rcases Bool.or_eq_true_iff.mp hbad2 with h | h
            · exact absurd h h1
            · exact h
          refine ⟨"Invalid \"target\" attribute. You cannot cut text from elements with \"readonly\" or \"disabled\" attributes",
            (step _).mpr ?_⟩
          rw [htgt, setTarget_elem, if_neg h1, if_pos h2]

theorem construction_rejects_iff_witness :
    optsDisabledCopy.target ≠ JsVal.undef
    ∧ (∃ msg, mkClipboardAction envW dom0 optsDisabledCopy 0 = Except.error msg) :=
  ⟨by decide,
   (construction_rejects_iff envW dom0 optsDisabledCopy 0 (by decide)).mpr (by decide)⟩

/-- Options supplying both a readonly element target and a non-empty text
under the cut action. -/
def optsCutReadonlyWithText : ClipboardOptions :=
  { action := some "cut", target := JsVal.elem readonlyElem, text := some "T", trigger := none }

/-- C10: even with a non-empty text supplied, a supplied element target is
still validated at construction: a disabled target under copy, or a
readonly or disabled target under cut, makes the constructor throw (the
error result precludes any selection or event). -/
theorem target_validated_even_with_text (env : Env) (dom : Dom)
    (opts : ClipboardOptions) (id : Nat) (e : Element)
    (htgt : opts.target = JsVal.elem e) (_htext : truthy opts.text = true)
    (hbad : (opts.action = some "copy" ∧ e.hasAttr "disabled" = true)
          ∨ (opts.action = some "cut"
             ∧ (e.hasAttr "readonly" = true ∨ e.hasAttr "disabled" = true))) :
    ∃ msg, mkClipboardAction env dom opts id = Except.error msg := by
  have step : ∀ msg, (setTarget opts.action opts.target = Except.error msg) →
      (mkClipboardAction env dom opts id = Except.error msg) := by
    intro msg h
    unfold mkClipboardAction resolveOptions
    rw [h]
  rcases hbad with ⟨ha, hd⟩ | ⟨ha, hrd⟩
  · have hst : setTarget opts.action opts.target
        = Except.error "Invalid \"target\" attribute. Please use \"readonly\" instead of \"disabled\" attribute" := by
      rw [htgt, setTarget_elem,
        if_pos (show (opts.action == some "copy" && e.hasAttr "disabled") = true by
          simp [ha, hd])]
    exact ⟨_, step _ hst⟩
  · have h1 : (opts.action == some "copy" && e.hasAttr "disabled") = false := by
      simp [ha]
    have h2 : (opts.action == some "cut"
        && (e.hasAttr "readonly" || e.hasAttr "disabled")) = true := by
      rcases hrd with h | h <;> simp [ha, h]
    have hst : setTarget opts.action opts.target
        = Except.error "Invalid \"target\" attribute. You cannot cut text from elements with \"readonly\" or \"disabled\" attributes" := by
      rw [htgt, setTarget_elem, if_neg (by simp [h1]), if_pos h2]
    exact ⟨_, step _ hst⟩

theorem target_validated_even_with_text_witness :
    optsCutReadonlyWithText.target = JsVal.elem readonlyElem
    ∧ truthy optsCutReadonlyWithText.text = true
    ∧ (∃ msg, mkClipboardAction envW dom0 optsCutReadonlyWithText 0 = Except.error msg) :=
  ⟨rfl, by decide,
   target_validated_even_with_text envW dom0 optsCutReadonlyWithText 0 readonlyElem
     rfl (by decide) (Or.inr ⟨rfl, Or.inl (by decide)⟩)⟩

/-- C9: `destroy` on both the action and the controller is idempotent and
total (a second call is a no-op, also when nothing was ever created), and it
touches only the listener and scratch-element state: the configuration
fields and the selected text of the action, and the id counter of the DOM,
are untouched. -/
theorem destroy_idempotent_and_safe (dom : Dom) (s : ActionState) (c : ControllerState) :
    actionDestroy (actionDestroy dom s).1 (actionDestroy dom s).2 = actionDestroy dom s
    ∧ (actionDestroy dom s).2.action = s.action
    ∧ (actionDestroy dom s).2.text = s.text
    ∧ (actionDestroy dom s).2.trigger = s.trigger
    ∧ (actionDestroy dom s).2.target = s.target
    ∧ (actionDestroy dom s).2.selectedText = s.selectedText
    ∧ (actionDestroy dom s).1.nextId = dom.nextId
    ∧ controllerDestroy (controllerDestroy dom c).1 (controllerDestroy dom c).2
        = controllerDestroy dom c := by
  have hact : ∀ (d : Dom) (a : ActionState),
      actionDestroy (actionDestroy d a).1 (actionDestroy d a).2 = actionDestroy d a := by
    intro d a
    unfold actionDestroy removeFake
    cases hf : a.fakeHandler <;> cases he : a.fakeElem <;> simp [hf, he]
  refine ⟨hact dom s, ?_, ?_, ?_, ?_, ?_, ?_, ?_⟩
  · unfold actionDestroy removeFake
    cases hf : s.fakeHandler <;> cases he : s.fakeElem <;> simp [hf, he]
  · unfold actionDestroy removeFake
    cases hf : s.fakeHandler <;> cases he : s.fakeElem <;> simp [hf, he]
  · unfold actionDestroy removeFake
    cases hf : s.fakeHandler <;> cases he : s.fakeElem <;> simp [hf, he]
  · unfold actionDestroy removeFake
    cases hf : s.fakeHandler <;> cases he : s.fakeElem <;> simp [hf, he]
  · unfold actionDestroy removeFake
    cases hf : s.fakeHandler <;> cases he : s.fakeElem <;> simp [hf, he]
  · unfold actionDestroy removeFake
    cases hf : s.fakeHandler <;> cases he : s.fakeElem <;> simp [hf, he]
  · unfold controllerDestroy
    cases hc : c.clipboardAction with
    | none => simp
    | some a => simp [actionDestroy]

/-- A trigger element carrying only `data-clipboard-text`. -/
def textTrigger : Element :=
  { nodeType := 1, attrs := [("data-clipboard-text", "X")], textContent := "" }

/-- C1 (code bug): with the default resolvers, a click on a trigger that
carries `data-clipboard-text` and no `data-clipboard-target` does NOT create
a scratch textarea or emit an event: `defaultTarget` returns `null` (not
`undefined`) when the attribute is absent, and the `target` setter rejects
`null` with a thrown error, aborting `onClick` before any selection. -/
theorem onClick_text_only_throws (env : Env) (qs : String → Option Element)
    (dom : Dom) (trigger : Element) (id : Nat)
    (_htext : trigger.hasAttr "data-clipboard-text" = true)
    (hnotgt : trigger.hasAttr "data-clipboard-target" = false) :
    onClick env qs dom trigger id
      = Except.error "Invalid \"target\" value, use a valid Element" := by
  have hdt : defaultTarget qs trigger = JsVal.null := by
    unfold defaultTarget getAttributeValue
    simp [hnotgt, truthy]
  unfold onClick mkClipboardAction resolveOptions
  rw [hdt, setTarget_null]

theorem onClick_text_only_throws_witness :
    textTrigger.hasAttr "data-clipboard-text" = true
    ∧ textTrigger.hasAttr "data-clipboard-target" = false
    ∧ onClick envW (fun _ => none) dom0 textTrigger 0
        = Except.error "Invalid \"target\" value, use a valid Element" :=
  ⟨by decide, by decide,
   onClick_text_only_throws envW (fun _ => none) dom0 textTrigger 0
     (by decide) (by decide)⟩

/-- Options with both target and text absent. -/
def optsAbsent : ClipboardOptions :=
  { action := some "copy", target := JsVal.undef, text := none, trigger := none }

/-- C2 counterexample: with both target and text absent, the constructor
returns successfully but emits NO event at all (the command step is never
reached), contradicting the claim that a success or error event with empty
selected text is emitted. -/
theorem both_absent_counterexample :
    Except.map (fun r => r.2.2) (mkClipboardAction envW dom0 optsAbsent 0)
      = Except.ok ([] : List Ev) := rfl

/-- C2 (amended): constructing with both target and text absent does not
fail, performs no selection (selected text stays empty, no scratch element),
and invokes no command at all: the run emits no event and leaves the
container untouched. -/
theorem both_absent_no_event (env : Env) (dom : Dom) (opts : ClipboardOptions)
    (id : Nat) (htgt : opts.target = JsVal.undef) (htext : truthy opts.text = false) :
    ∃ s, mkClipboardAction env dom opts id = Except.ok (dom, s, [])
       ∧ s.selectedText = "" ∧ s.fakeElem = none := by
  refine ⟨{ id := id, action := opts.action, text := opts.text, trigger := opts.trigger,
            selectedText := "", target := none, fakeElem := none,
            fakeHandlerCallback := false, fakeHandler := false }, ?_, rfl, rfl⟩
  unfold mkClipboardAction resolveOptions
  rw [htgt]
  show Except.ok (initSelection env dom _) = _
  unfold initSelection
  simp [htext]

theorem both_absent_no_event_witness :
    optsAbsent.target = JsVal.undef
    ∧ truthy optsAbsent.text = false
    ∧ (∃ s, mkClipboardAction envW dom0 optsAbsent 0 = Except.ok (dom0, s, [])
          ∧ s.selectedText = "" ∧ s.fakeElem = none) :=
  ⟨rfl, rfl, both_absent_no_event envW dom0 optsAbsent 0 rfl rfl⟩

theorem selectFake_fresh (env : Env) (dom : Dom) (s : ActionState)
    (hfe : s.fakeElem = none) (hfh : s.fakeHandler = false) :
    selectFake env dom s
      = ({ dom with
           containerListeners := dom.containerListeners ++ [s.id]
           containerChildren :=
             dom.containerChildren ++ [createFakeElem env (s.text.getD "") dom.nextId]
           nextId := dom.nextId + 1 },
         { s with
           fakeHandlerCallback := true
           fakeHandler := true
           fakeElem := some (createFakeElem env (s.text.getD "") dom.nextId)
           selectedText := (createFakeElem env (s.text.getD "") dom.nextId).value },
         handleResult
           { s with
             fakeHandlerCallback := true
             fakeHandler := true
             fakeElem := some (createFakeElem env (s.text.getD "") dom.nextId)
             selectedText := (createFakeElem env (s.text.getD "") dom.nextId).value }
           (match env.execCommand s.action with
            | some b => b
            | none => false)) := by
  unfold selectFake removeFake copyText
  simp [hfe, hfh]

/-- Text-mode options used for the first action of the two-action trace. -/
def optsTextA : ClipboardOptions :=
  { action := some "copy", target := JsVal.undef, text := some "A", trigger := none }

/-- Text-mode options used for the second action of the two-action trace. -/
def optsTextB : ClipboardOptions :=
  { action := some "copy", target := JsVal.undef, text := some "B", trigger := none }

/-- C7 counterexample: constructing a second text-mode action on the same
container does NOT remove the first action's scratch element: starting from
an empty container, after the two constructions the container holds TWO
scratch elements, so the at-most-one claim fails at that point. -/
theorem second_action_two_scratch_elems :
    Except.map (fun r => r.1.containerChildren.length)
      (Except.bind (mkClipboardAction envW dom0 optsTextA 1)
        (fun r => mkClipboardAction envW r.1 optsTextB 2))
      = Except.ok 2 := rfl

/-- The action state `resolveOptions` produces for text-mode options (no
supplied target): base properties assigned, empty selected text, no fake
element or handler yet. -/
def freshState (o : ClipboardOptions) (id : Nat) : ActionState :=
  { id := id, action := o.action, text := o.text, trigger := o.trigger,
    selectedText := "", target := none, fakeElem := none,
    fakeHandlerCallback := false, fakeHandler := false }

theorem mk_textmode (env : Env) (dom : Dom) (o : ClipboardOptions) (id : Nat)
    (h : truthy o.text = true) (t : o.target = JsVal.undef) :
    mkClipboardAction env dom o id
      = Except.ok (selectFake env dom (freshState o id)) := by
  unfold mkClipboardAction resolveOptions
  rw [t]
  show Except.ok (initSelection env dom _) = _
  unfold initSelection freshState
  simp [h]

/-- C7 (amended): a fresh text-mode action inserts its scratch element
without removing the previous action's one (its own `removeFake` only
covers its own state, which is empty on a fresh instance): starting from an
empty container, after the second construction both scratch elements
coexist. The first action's scratch disappears only when that action's
container click listener (its `removeFake`) later fires, after which
exactly the second action's scratch element remains. -/
theorem scratch_element_lifecycle (env : Env) (dom : Dom)
    (o1 o2 : ClipboardOptions) (id1 id2 : Nat)
    (r1 r2 : Dom × ActionState × List Ev)
    (h1 : truthy o1.text = true) (h2 : truthy o2.text = true)
    (t1 : o1.target = JsVal.undef) (t2 : o2.target = JsVal.undef)
    (hdom : dom.containerChildren = [])
    (hm1 : mkClipboardAction env dom o1 id1 = Except.ok r1)
    (hm2 : mkClipboardAction env r1.1 o2 id2 = Except.ok r2) :
    ∃ f1 f2,
      r1.2.1.fakeElem = some f1
      ∧ r1.1.containerChildren = [f1]
      ∧ r2.2.1.fakeElem = some f2
      ∧ r2.1.containerChildren = [f1, f2]
      ∧ (removeFake r2.1 r1.2.1).1.containerChildren = [f2] := by
  obtain rfl : selectFake env dom (freshState o1 id1) = r1 :=
    Except.ok.inj ((mk_textmode env dom o1 id1 h1 t1).symm.trans hm1)
  obtain rfl : selectFake env _ (freshState o2 id2) = r2 :=
    Except.ok.inj ((mk_textmode env _ o2 id2 h2 t2).symm.trans hm2)
  rw [selectFake_fresh env dom (freshState o1 id1) rfl rfl]
  rw [selectFake_fresh env _ (freshState o2 id2) rfl rfl]
  refine ⟨_, _, rfl, ?_, rfl, ?_, ?_⟩
  · simp [freshState, hdom]
  · simp [freshState, hdom]
  · unfold removeFake
    simp [freshState, hdom, List.erase_cons_head]

/-- Result of the first text-mode construction of the concrete trace. -/
def traceR1 : Dom × ActionState × List Ev :=
  selectFake envW dom0 (freshState optsTextA 1)

/-- Result of the second text-mode construction of the concrete trace. -/
def traceR2 : Dom × ActionState × List Ev :=
  selectFake envW traceR1.1 (freshState optsTextB 2)

theorem scratch_element_lifecycle_witness :
    truthy optsTextA.text = true ∧ truthy optsTextB.text = true
    ∧ optsTextA.target = JsVal.undef ∧ optsTextB.target = JsVal.undef
    ∧ dom0.containerChildren = []
    ∧ mkClipboardAction envW dom0 optsTextA 1 = Except.ok traceR1
    ∧ mkClipboardAction envW traceR1.1 optsTextB 2 = Except.ok traceR2
    ∧ ∃ f1 f2,
        traceR1.2.1.fakeElem = some f1
        ∧ traceR1.1.containerChildren = [f1]
        ∧ traceR2.2.1.fakeElem = some f2
        ∧ traceR2.1.containerChildren = [f1, f2]
        ∧ (removeFake traceR2.1 traceR1.2.1).1.containerChildren = [f2] :=
  ⟨by decide, by decide, rfl, rfl, rfl, rfl, rfl,
   scratch_element_lifecycle envW dom0 optsTextA optsTextB 1 2 traceR1 traceR2
     (by decide) (by decide) rfl rfl rfl rfl rfl⟩

end ClipboardSpec
